import Mathlib

/-!
Shallow embedding of the ai-content-generator pipeline
(`generate_ideas.py`, `generate_article.py`) and proofs about the claims of
its specification.

Text is modelled as `List Char` (Python `str` is a character sequence and all
index/slice operations in the source are character based).  JSON documents are
modelled by an explicit `Json` value type; the JSON (de)serialisation library
used by the source (`json.dumps` / `json.loads`) is an external collaborator
and is treated as the identity between blobs and `Json` values.  The HTTP
layer of the Gist document store is modelled by the status code plus the file
map of the container, which is exactly the part of `requests` responses that
the source inspects.
-/

namespace AiContentGen

/-- Character-sequence model of Python `str`. -/
abbrev Str := List Char

/-- `strStartsWith s p` : `p` is a prefix of `s` (Python `str.startswith`). -/
def strStartsWith : Str → Str → Bool
  | _, [] => true
  | [], _ :: _ => false
  | c :: cs, p :: ps => c == p && strStartsWith cs ps

/-- Split at the first occurrence of `pat`: returns the text before the
occurrence and the text after it (Python `s.split(pat, 1)` / `s.index(pat)`).
`none` when `pat` does not occur. -/
def splitFirst? (pat : Str) : Str → Option (Str × Str)
  | [] => none
  | c :: cs =>
    if strStartsWith (c :: cs) pat then
      some ([], (c :: cs).drop pat.length)
    else
      match splitFirst? pat cs with
      | some (pre, post) => some (c :: pre, post)
      | none => none

/-- Character index of the first occurrence of `pat` in `s`
(Python `s.index(pat)`). -/
def firstIdxOf? (s pat : Str) : Option Nat :=
  (splitFirst? pat s).map (fun p => p.1.length)

/-- Text strictly between the first occurrence of `opn` and the first
occurrence of `cls` after it. -/
def between? (s opn cls : Str) : Option Str :=
  match splitFirst? opn s with
  | none => none
  | some (_, after) =>
    match splitFirst? cls after with
    | none => none
    | some (content, _) => some content

/-- Python `str.strip()` (restricted to ASCII whitespace, which is all that
occurs in the pipeline's payloads). -/
def trim (s : Str) : Str :=
  ((s.dropWhile Char.isWhitespace).reverse.dropWhile Char.isWhitespace).reverse

/-- JSON values, the blob format of the document store and of the provider's
idea payloads. -/
inductive Json where
  | null : Json
  | bool (b : Bool) : Json
  | num (n : Int) : Json
  | str (s : Str) : Json
  | arr (elems : List Json) : Json
  | obj (fields : List (Str × Json)) : Json

/-- First-match key lookup in a JSON object's field list
(Python `dict[key]` / `dict.get(key)`; Gist file names are unique). -/
def jsonLookup (key : Str) : List (Str × Json) → Option Json
  | [] => none
  | (k, v) :: rest => if k = key then some v else jsonLookup key rest

/-- Python truthiness of a JSON value (`if not selection_data: ...`). -/
def jsonTruthy : Json → Bool
  | Json.null => false
  | Json.bool b => b
  | Json.num n => n != 0
  | Json.str s => !s.isEmpty
  | Json.arr xs => !xs.isEmpty
  | Json.obj fields => !fields.isEmpty

/-- Python list indexing: negative indices count from the end (`xs[-1]` is
the last element and `xs[-len]` is still a valid access to the first); only
`i < -len` or `i ≥ len` is `none` (an `IndexError`).  Used by
`ideas[int(selection) - 1]`. -/
def pyIndex? {α : Type} (xs : List α) (i : Int) : Option α :=
  if i < 0 then
    if xs.length < (-i).toNat then none
    else xs.get? (xs.length - (-i).toNat)
  else xs.get? i.toNat

/-! ### ArticleGenerator: hybrid parsing of the provider response
(`generate_article.py`, lines 162-206). -/

/-- An article record as built by `ArticleGenerator.generate_article`
(`generate_article.py`, lines 186-192). -/
structure Article where
  title : Str
  body : Str
  hashtags : List Str
  summary : Str
  estimated_read_time : Str
deriving DecidableEq

def artOpen : Str := "<article>".data
def artClose : Str := "</article>".data
def bodyOpen : Str := "<body>".data
def bodyClose : Str := "</body>".data

/-- `generate_article.py` lines 167-173: slice the response from the first
`<article>` to the end of the first `</article>`; when either marker is
absent the whole response is used.  (Python slicing with `end < start`
yields the empty string, matched here by truncated `Nat` subtraction.) -/
def extractArticleBlock (s : Str) : Str :=
  match firstIdxOf? s artOpen, firstIdxOf? s artClose with
  | some st, some en => (s.drop st).take (en + artClose.length - st)
  | _, _ => s

/-- `generate_article.py` lines 176-179: the regex capture
`<body>\s*(.*?)\s*</body>` (DOTALL) followed by `.group(1).strip()`.
The lazy capture bounded by greedy whitespace runs is the text between the
first `<body>` and the first `</body>` after it, with leading and trailing
whitespace removed; the subsequent `.strip()` makes the net effect exactly
`trim` of the delimiter-bounded content. -/
def bodyCapture? (xml : Str) : Option Str :=
  (between? xml bodyOpen bodyClose).map trim

def placeholderBody : Str := "<body>PLACEHOLDER</body>".data

/-- One pass of `re.sub(r'<body>.*?</body>', '<body>PLACEHOLDER</body>', xml,
flags=re.DOTALL)` (`generate_article.py` line 182): every non-overlapping
lazy match is replaced, scanning left to right.  `fuel` bounds the recursion
(the input length suffices, each step consumes at least one character). -/
def substBodyAux : Nat → Str → Str
  | 0, s => s
  | fuel + 1, s =>
    match splitFirst? bodyOpen s with
    | none => s
    | some (pre, afterOpen) =>
      match splitFirst? bodyClose afterOpen with
      | none => s
      | some (_, tail) => pre ++ placeholderBody ++ substBodyAux fuel tail

def substituteBody (s : Str) : Str := substBodyAux (s.length + 1) s

/-- Valid element-name characters for the tagged-markup documents the job
exchanges (`article`, `title`, `body`, `hashtags`, `tag`, `summary`,
`estimated_read_time`). -/
def xmlNameOk (name : Str) : Bool :=
  !name.isEmpty && name.all (fun c => c.isAlphanum || c == '_')

/-- Conservative model of `xml.etree.ElementTree.fromstring` succeeding:
a single root element of properly nested open/close tags, text only inside
the root, no raw `&` (entities are not modelled), no attributes.  The real
library accepts slightly more (entity references, attributes); every input
used in the proofs below is inside the common fragment. -/
def scanXmlAux : Nat → Str → List Str → Bool → Bool
  | _, [], stack, rootSeen => stack.isEmpty && rootSeen
  | 0, _ :: _, _, _ => false
  | fuel + 1, '<' :: '/' :: rest, stack, rootSeen =>
    let name := rest.takeWhile (fun c => c != '>')
    (match rest.dropWhile (fun c => c != '>'), stack with
     | '>' :: rest2, top :: stack2 =>
       xmlNameOk name && name == top && scanXmlAux fuel rest2 stack2 rootSeen
     | _, _ => false)
  | fuel + 1, '<' :: rest, stack, rootSeen =>
    let name := rest.takeWhile (fun c => c != '>')
    (match rest.dropWhile (fun c => c != '>') with
     | '>' :: rest2 =>
       (match stack, rootSeen with
        | [], true => false
        | _, _ => xmlNameOk name && scanXmlAux fuel rest2 (name :: stack) true)
     | _ => false)
  | fuel + 1, c :: rest, stack, rootSeen =>
    match stack with
    | [] => c.isWhitespace && scanXmlAux fuel rest [] rootSeen
    | _ :: _ => c != '&' && scanXmlAux fuel rest stack rootSeen

def checkXml (s : Str) : Bool := scanXmlAux s.length s [] false

/-- `root.find(tag).text` for the flat article document: text between the
first `<tag>` and the matching `</tag>`.  `none` models both an absent
element and `find` returning an element with `text = None` never arises for
the flat fields (an empty element yields `some []`, which the callers treat
like `None`, exactly as Python's truthiness test does). -/
def findTagText? (xml : Str) (tag : String) : Option Str :=
  between? xml ("<" ++ tag ++ ">").data ("</" ++ tag ++ ">").data

/-- `generate_article.py` lines 187, 190, 191:
`root.find(t).text.strip() if root.find(t) is not None and root.find(t).text
else dflt`. -/
def fieldOrDefault (xml : Str) (tag : String) (dflt : Str) : Str :=
  match findTagText? xml tag with
  | none => dflt
  | some t => if t.isEmpty then dflt else trim t

def tagOpen : Str := "<tag>".data
def tagClose : Str := "</tag>".data

/-- Texts of the successive `<tag>...</tag>` elements of a block. -/
def rawTagTexts : Nat → Str → List Str
  | 0, _ => []
  | fuel + 1, s =>
    match splitFirst? tagOpen s with
    | none => []
    | some (_, afterOpen) =>
      match splitFirst? tagClose afterOpen with
      | none => []
      | some (content, tail) => content :: rawTagTexts fuel tail

/-- `generate_article.py` line 189:
`[tag.text.strip() for tag in root.findall(".//hashtags/tag") if tag.text]` —
the `tag` elements below `hashtags`, empty texts filtered out before
stripping. -/
def extractHashtags (xml : Str) : List Str :=
  match findTagText? xml "hashtags" with
  | none => []
  | some block =>
    ((rawTagTexts block.length block).filter (fun t => !t.isEmpty)).map trim

/-- Default read time, `generate_article.py` line 191. -/
def ertDefault : Str := "5分".data

/-- Result of the parsing stage: an article, or the raised exception
(`ValueError` when the body delimiters are absent, `ET.ParseError` when the
remainder is not well-formed markup).  In both failure cases the source
preserves the raw response in a debug artifact and re-raises
(lines 197-206). -/
inductive ParseOutcome where
  | ok (a : Article) : ParseOutcome
  | fail (msg : String) : ParseOutcome
deriving DecidableEq

/-- The parsing stage of `ArticleGenerator.generate_article`
(`generate_article.py`, lines 166-195): extract the `<article>` block, capture
the body by delimiters, splice a placeholder over every body, structurally
parse the remainder and assemble the record with per-field defaults. -/
def parseArticleResponse (response : Str) : ParseOutcome :=
  let xml := extractArticleBlock response
  match bodyCapture? xml with
  | none => ParseOutcome.fail "body tag not found"
  | some body =>
    let remainder := substituteBody xml
    if checkXml remainder then
      ParseOutcome.ok
        { title := fieldOrDefault remainder "title" []
          body := body
          hashtags := extractHashtags remainder
          summary := fieldOrDefault remainder "summary" []
          estimated_read_time := fieldOrDefault remainder "estimated_read_time" ertDefault }
    else ParseOutcome.fail "xml parse error"

/-! ### Persisting an article (`generate_article.py`, lines 208-226). -/

/-- The markdown artifact written by `ArticleGenerator.save_article`
(lines 209-220): title heading, body, separator, hashtag line, read time,
summary. -/
def saveArticleMarkdown (a : Article) : Str :=
  "# ".data ++ a.title ++ "\n\n".data ++ a.body ++
  "\n\n---\n\n**ハッシュタグ**: ".data ++
  List.intercalate " ".data (a.hashtags.map (fun t => '#' :: t)) ++
  "\n\n**読了時間**: ".data ++ a.estimated_read_time ++
  "\n\n**要約**: ".data ++ a.summary ++ "\n".data

/-- The sidecar written by `save_article` (lines 224-226):
`json.dump(article, ...)` of the article dict, whose keys were assembled in
this order at lines 186-192. -/
def articleSidecar (a : Article) : Json :=
  Json.obj
    [("title".data, Json.str a.title),
     ("body".data, Json.str a.body),
     ("hashtags".data, Json.arr (a.hashtags.map Json.str)),
     ("summary".data, Json.str a.summary),
     ("estimated_read_time".data, Json.str a.estimated_read_time)]

/-- `save_article` writes the primary text artifact and the structured
sidecar, both derived from the same article value. -/
def save_article (a : Article) : Str × Json :=
  (saveArticleMarkdown a, articleSidecar a)

/-- Decode a JSON array of strings. -/
def strList? : List Json → Option (List Str)
  | [] => some []
  | Json.str s :: rest => (strList? rest).map (fun ts => s :: ts)
  | _ :: _ => none

/-- Modelled from the spec: no code in the repository reads the sidecar back;
§4.5 Persisting requires the sidecar to be "lossless" ("sidecar fully
reconstructs the primary artifact's displayed fields"), so the reader is the
evident JSON decoding of the five article fields by key. -/
def jsonToArticle : Json → Option Article
  | Json.obj fields =>
    match jsonLookup "title".data fields, jsonLookup "body".data fields,
          jsonLookup "hashtags".data fields, jsonLookup "summary".data fields,
          jsonLookup "estimated_read_time".data fields with
    | some (Json.str t), some (Json.str b), some (Json.arr hs),
      some (Json.str s), some (Json.str e) =>
      match strList? hs with
      | some tags => some ⟨t, b, tags, s, e⟩
      | none => none
    | _, _, _, _, _ => none
  | _ => none

/-! ### The Gist document store (`GistManager` in both job files). -/

/-- The part of an HTTP response to a Gist read that the source inspects:
the status code and the parsed file map of the container. -/
structure GistResponse where
  status : Nat
  files : List (Str × Json)

def historyFile : Str := "article_history.json".data
def selectionFile : Str := "article_selection.json".data

/-- `GistManager.get_gist_content` (`generate_article.py` lines 35-42,
`generate_ideas.py` lines 36-44): on status 200 return the parsed content of
the named file when present; on any other status, or when the file is
absent, return `None`.  A store failure and an absent blob are therefore
indistinguishable to every caller. -/
def get_gist_content (resp : GistResponse) (filename : Str) : Option Json :=
  if resp.status = 200 then jsonLookup filename resp.files else none

/-- `GistManager.load_history` (`generate_ideas.py` lines 69-76): no gist, a
failed read, an absent blob, or a falsy blob all become the empty history;
otherwise `data.get("articles", [])`.  (A truthy non-object blob would raise
`AttributeError` in Python; history blobs are always objects, and the model
returns `[]` there.) -/
def load_history (gistId : Option Str) (resp : GistResponse) : List Json :=
  match gistId with
  | none => []
  | some _ =>
    match get_gist_content resp historyFile with
    | some (Json.obj fields) =>
      match jsonLookup "articles".data fields with
      | some (Json.arr xs) => xs
      | _ => []
    | _ => []

/-- `existing.get("articles", []) if existing else []`
(`generate_article.py` line 56). -/
def historyArticlesOfBlob : Option Json → List Json
  | some (Json.obj fields) =>
    match jsonLookup "articles".data fields with
    | some (Json.arr xs) => xs
    | _ => []
  | _ => []

/-- The history entries currently recorded in a container's file map. -/
def historyArticles (files : List (Str × Json)) : List Json :=
  historyArticlesOfBlob (jsonLookup historyFile files)

/-- One appended history record (`generate_article.py` lines 58-62). -/
def historyEntryJson (date title category : Str) : Json :=
  Json.obj
    [("date".data, Json.str date),
     ("title".data, Json.str title),
     ("category".data, Json.str category)]

/-- The new content of the history blob computed by
`GistManager.add_to_history` (`generate_article.py` lines 53-64): a fresh
read of the blob through the given response, append one entry, re-serialise.
-/
def add_to_history_content (resp : GistResponse) (date title category : Str) : Json :=
  Json.obj
    [("articles".data,
      Json.arr (historyArticlesOfBlob (get_gist_content resp historyFile) ++
                [historyEntryJson date title category]))]

/-- `add_to_history_content` with the category taken as the raw value the
selected idea carries: the call site `selected_idea['category']`
(`generate_article.py` line 305) passes that value through unchanged, and
Python embeds it in the entry dict whatever it is.  `add_to_history_content`
is the specialisation to the string categories the pipeline normally
produces (`add_to_history_contentOf_str` below). -/
def add_to_history_contentOf (resp : GistResponse) (date title : Str)
    (category : Json) : Json :=
  Json.obj
    [("articles".data,
      Json.arr (historyArticlesOfBlob (get_gist_content resp historyFile) ++
                [Json.obj
                  [("date".data, Json.str date),
                   ("title".data, Json.str title),
                   ("category".data, category)]]))]

/-- Gist PATCH semantics for one named file
(`GistManager.update_file_in_gist`, `generate_article.py` lines 44-51, and
the store's documented per-file granularity): the named file is replaced or
added, every other file is untouched. -/
def applyPatch : List (Str × Json) → Str → Json → List (Str × Json)
  | [], name, content => [(name, content)]
  | (k, v) :: rest, name, content =>
    if k = name then (k, content) :: rest
    else (k, v) :: applyPatch rest name content

/-- Gist PATCH of several named files at once
(`GistManager.create_or_update_gist`, `generate_ideas.py` lines 46-67). -/
def applyFiles : List (Str × Json) → List (Str × Json) → List (Str × Json)
  | files, [] => files
  | files, (n, c) :: rest => applyFiles (applyPatch files n c) rest

/-! ### ArticleGenerationJob (`generate_article.py`, `main`, lines 229-315). -/

/-- Outcome of `ArticleGenerator.generate_article` as seen by `main`: the
parsed article, or the exception that escaped the call (exhausted provider
retries, or the re-raised parse failure) — `main` catches every exception
alike at line 278. -/
inductive ProviderOutcome where
  | ok (a : Article) : ProviderOutcome
  | error (errName : Str) : ProviderOutcome

/-- The external interactions of one run: the store's answer to the selection
read at job start (line 250), the generation outcome, the store's answer to
the fresh history read inside `add_to_history` (line 55), and today's date
string. -/
structure ArticleJobInput where
  selectionResp : GistResponse
  provider : ProviderOutcome
  historyResp : GistResponse
  todayDate : Str

/-- Observable side effects of one run: whether the
`generator.generate_article(selected_idea)` call (line 277) was entered —
prompt assembly and the provider API call both happen inside it — the
article artifact written by `save_article` (line 300), and the content
patched over the history blob (line 65). -/
structure ArticleJobEffects where
  providerCalled : Bool
  artifactWrite : Option Article
  historyWrite : Option Json

def noEffects : ArticleJobEffects := ⟨false, none, none⟩

inductive ArticleJobOutcome where
  | selectionReadFailed : ArticleJobOutcome
  | awaitingSelection : ArticleJobOutcome
  | uncaughtError (msg : String) : ArticleJobOutcome
  | generationFailed (errName : Str) : ArticleJobOutcome
  | completed : ArticleJobOutcome
deriving DecidableEq

/-- `main` of `generate_article.py` from the selection read on
(lines 249-315), with the environment/gist-discovery preamble assumed to have
succeeded.  The `uncaughtError` outcomes are the exceptions Python would
raise out of `main` on ill-shaped data (`IndexError` from
`ideas[int(selection) - 1]` at line 270, `KeyError`/`TypeError` from the
`selected_idea['title']` access at line 271 — before `generate_article` —
and from the `selected_idea['category']` access at line 305, after the
artifact write); none of them is a handled configuration error.  A missing
idea field read inside `generate_article` itself (its prompt build, lines
92-95, runs inside the caught `try` of lines 276-292) surfaces as a
`ProviderOutcome.error`, i.e. as `generationFailed`; in particular a run
whose `generate_article` call succeeded has read `idea['category']` already,
so the `completed`-with-absent-`category` combination never arises from a
real execution, and the model gives that input the uncaught `KeyError`
Python would raise at line 305. -/
def article_job (inp : ArticleJobInput) : ArticleJobOutcome × ArticleJobEffects :=
  match get_gist_content inp.selectionResp selectionFile with
  | none => (ArticleJobOutcome.selectionReadFailed, noEffects)
  | some selData =>
    if !jsonTruthy selData then (ArticleJobOutcome.selectionReadFailed, noEffects)
    else
      match selData with
      | Json.obj selFields =>
        match jsonLookup "selection".data selFields with
        | none => (ArticleJobOutcome.awaitingSelection, noEffects)
        | some Json.null => (ArticleJobOutcome.awaitingSelection, noEffects)
        | some selVal =>
          match jsonLookup "ideas".data selFields with
          | some (Json.arr ideas) =>
            match selVal with
            | Json.num k =>
              match pyIndex? ideas (k - 1) with
              | none => (ArticleJobOutcome.uncaughtError "IndexError", noEffects)
              | some idea =>
                match idea with
                | Json.obj ideaFields =>
                  match jsonLookup "title".data ideaFields with
                  | none => (ArticleJobOutcome.uncaughtError "KeyError", noEffects)
                  | some _ =>
                    match inp.provider with
                    | ProviderOutcome.error e =>
                      (ArticleJobOutcome.generationFailed e,
                       { providerCalled := true, artifactWrite := none, historyWrite := none })
                    | ProviderOutcome.ok art =>
                      match jsonLookup "category".data ideaFields with
                      | some cat =>
                        (ArticleJobOutcome.completed,
                         { providerCalled := true,
                           artifactWrite := some art,
                           historyWrite := some (add_to_history_contentOf inp.historyResp
                             inp.todayDate art.title cat) })
                      | none =>
                        (ArticleJobOutcome.uncaughtError "KeyError",
                         { providerCalled := true, artifactWrite := some art,
                           historyWrite := none })
                | _ => (ArticleJobOutcome.uncaughtError "TypeError", noEffects)
            | _ => (ArticleJobOutcome.uncaughtError "TypeError", noEffects)
          | _ => (ArticleJobOutcome.uncaughtError "KeyError", noEffects)
      | _ => (ArticleJobOutcome.uncaughtError "AttributeError", noEffects)

/-- The container's file map after the run: the history patch of
`add_to_history` applied when it was issued and the PATCH succeeded; the
source ignores a failed patch and still reports completion. -/
def storeAfter (files : List (Str × Json)) (eff : ArticleJobEffects)
    (patchOk : Bool) : List (Str × Json) :=
  match eff.historyWrite with
  | some c => if patchOk then applyPatch files historyFile c else files
  | none => files

/-! ### IdeaProposalJob (`generate_ideas.py`, `main`, lines 165-274). -/

/-- The external interactions of one IdeaProposalJob run that reach the
store: the located gist (line 181), the store's answer to the history read,
the ideas the generator produced, and today's date. -/
structure IdeaJobInput where
  gistId : Option Str
  historyResp : GistResponse
  ideas : List Json
  today : Str

/-- `article_selection.json` content written at lines 193-197: today's date,
the ideas, and `selection = null`. -/
def selectionContent (today : Str) (ideas : List Json) : Json :=
  Json.obj
    [("date".data, Json.str today),
     ("ideas".data, Json.arr ideas),
     ("selection".data, Json.null)]

/-- The two files written in the single store update at lines 203-210:
the fresh selection record and the history carried forward unchanged
(lines 199-201). -/
def idea_job_files (inp : IdeaJobInput) : List (Str × Json) :=
  [(selectionFile, selectionContent inp.today inp.ideas),
   (historyFile,
    Json.obj [("articles".data, Json.arr (load_history inp.gistId inp.historyResp))])]

/-- One IdeaProposalJob persisting step against a store in state `files`,
with the history read answering from that same state. -/
def ideaJobOnce (files : List (Str × Json)) (g : Str) (ideas : List Json)
    (today : Str) : List (Str × Json) :=
  applyFiles files (idea_job_files ⟨some g, ⟨200, files⟩, ideas, today⟩)

/-- The `selection` field of the selection blob of a container. -/
def selectionFieldOf (files : List (Str × Json)) : Option Json :=
  match jsonLookup selectionFile files with
  | some (Json.obj fields) => jsonLookup "selection".data fields
  | _ => none

/-! ### Idea-payload parsing (`IdeaGenerator.generate_ideas`,
`generate_ideas.py` lines 155-162). -/

/-- Code-fence stripping, lines 156-159: prefer the part after the first
\`\`\`json fence up to the next fence (or to the end when unclosed),
otherwise the part between the first two bare \`\`\` fences; both stripped. -/
def stripCodeFence (r : Str) : Str :=
  match splitFirst? "```json".data r with
  | some (_, after) =>
    (match splitFirst? "```".data after with
     | some (pre, _) => trim pre
     | none => trim after)
  | none =>
    match splitFirst? "```".data r with
    | some (_, after) =>
      (match splitFirst? "```".data after with
       | some (pre, _) => trim pre
       | none => trim after)
    | none => r

/-- `data["ideas"]` on the decoded payload (line 162): the value is returned
verbatim, whatever it is; a missing key raises `KeyError`, a non-object
payload raises `TypeError`.  No count or shape check is performed. -/
def ideasFromData : Json → Except String Json
  | Json.obj fields =>
    match jsonLookup "ideas".data fields with
    | some v => Except.ok v
    | none => Except.error "KeyError: ideas"
  | _ => Except.error "TypeError"

/-- The parsing stage of `generate_ideas` (lines 155-162), with the JSON
decoder `loads` (the external `json` library) passed in: strip fences,
decode, take `data["ideas"]`. -/
def generate_ideas_parse (loads : Str → Option Json) (response : Str) :
    Except String Json :=
  match loads (stripCodeFence response) with
  | none => Except.error "json.JSONDecodeError"
  | some data => ideasFromData data

/-! ### Provider retry loop (`generate_article.py`, lines 132-156). -/

def max_retries : Nat := 3
def retry_delay : Nat := 5

/-- The `for attempt in range(max_retries)` loop: `n` is the number of
attempts still allowed after the current one.  On the last attempt the call's
failure propagates (`raise`, line 156); otherwise the loop sleeps
`retry_delay * 2 ^ attempt` (line 151) and retries.  The second component
accumulates the total time slept before the returned result. -/
def retrySeq {E A : Type} (call : Nat → Except E A) :
    Nat → Nat → Nat → Except E A × Nat
  | attempt, 0, waited => (call attempt, waited)
  | attempt, n + 1, waited =>
    match call attempt with
    | Except.ok a => (Except.ok a, waited)
    | Except.error _ => retrySeq call (attempt + 1) n (waited + retry_delay * 2 ^ attempt)

/-- The provider call wrapped in the retry loop, starting at attempt 0 with
no time slept. -/
def providerCallWithRetry {E A : Type} (call : Nat → Except E A) : Except E A × Nat :=
  retrySeq call 0 (max_retries - 1) 0

/-! ### Concrete instances used by the claim theorems below. -/

set_option maxRecDepth 40000

/-- C1: a selection blob with three well-shaped ideas and the out-of-range
selection `0`. -/
def c1idea1 : Json :=
  Json.obj [("title".data, Json.str "案1".data), ("category".data, Json.str "cat1".data)]

def c1idea2 : Json :=
  Json.obj [("title".data, Json.str "案2".data), ("category".data, Json.str "cat2".data)]

def c1idea3 : Json :=
  Json.obj [("title".data, Json.str "案3".data), ("category".data, Json.str "cat3".data)]

def c1selDataWith (sel : Int) : Json :=
  Json.obj
    [("date".data, Json.str "2025-01-02".data),
     ("ideas".data, Json.arr [c1idea1, c1idea2, c1idea3]),
     ("selection".data, Json.num sel)]

def c1article : Article :=
  ⟨"生成記事".data, "本文".data, ["AI".data], "要約".data, "5分".data⟩

def c1inpWith (sel : Int) : ArticleJobInput :=
  ⟨⟨200, [(selectionFile, c1selDataWith sel)]⟩, ProviderOutcome.ok c1article, ⟨200, []⟩,
   "2025-01-02".data⟩

/-- C2: a history blob holding two entries. -/
def c2entry1 : Json := historyEntryJson "2025-01-01".data "記事A".data "cat1".data

def c2entry2 : Json := historyEntryJson "2025-01-02".data "記事B".data "cat2".data

def c2files : List (Str × Json) :=
  [(historyFile, Json.obj [("articles".data, Json.arr [c2entry1, c2entry2])])]

/-- C3: a store with a valid selection (`selection = 1`) and two history
entries. -/
def c3idea : Json :=
  Json.obj [("title".data, Json.str "案".data), ("category".data, Json.str "cat".data)]

def c3selData : Json :=
  Json.obj
    [("date".data, Json.str "2025-01-03".data),
     ("ideas".data, Json.arr [c3idea]),
     ("selection".data, Json.num 1)]

def c3store : List (Str × Json) :=
  [(selectionFile, c3selData),
   (historyFile, Json.obj [("articles".data, Json.arr [c2entry1, c2entry2])])]

def c3article : Article :=
  ⟨"新記事".data, "本文".data, ["AI".data], "要約".data, "5分".data⟩

/-- C3 counterexample input: the fresh history read inside the append fails
(HTTP 500) while the store still holds its two entries. -/
def c3badInp : ArticleJobInput :=
  ⟨⟨200, c3store⟩, ProviderOutcome.ok c3article, ⟨500, c3store⟩, "2025-01-03".data⟩

/-- C3 witness input: every store interaction succeeds. -/
def c3okInp : ArticleJobInput :=
  ⟨⟨200, c3store⟩, ProviderOutcome.ok c3article, ⟨200, c3store⟩, "2025-01-03".data⟩

def c3okEff : ArticleJobEffects :=
  { providerCalled := true,
    artifactWrite := some c3article,
    historyWrite := some (add_to_history_contentOf ⟨200, c3store⟩ "2025-01-03".data
      c3article.title (Json.str "cat".data)) }

/-- C4: decoded idea payloads with two and with four ideas. -/
def c4idea1 : Json :=
  Json.obj [("id".data, Json.num 1), ("title".data, Json.str "案A".data)]

def c4idea2 : Json :=
  Json.obj [("id".data, Json.num 2), ("title".data, Json.str "案B".data)]

def c4loadsTwo : Str → Option Json :=
  fun _ => some (Json.obj [("ideas".data, Json.arr [c4idea1, c4idea2])])

def c4loadsFour : Str → Option Json :=
  fun _ => some (Json.obj [("ideas".data, Json.arr [c4idea1, c4idea2, c4idea1, c4idea2])])

/-- C5: prose around the payload, body with embedded newlines, a raw `<`
and a raw `&`. -/
def c5response : Str :=
  ("Sure! Here it is:\n<article>\n<title>AI入門</title>\n<body>\n## はじめに\nLine <one> & two\n残り\n</body>\n" ++
   "<hashtags>\n<tag>AI</tag>\n<tag>入門</tag>\n</hashtags>\n<summary>要約文</summary>\n" ++
   "<estimated_read_time>5分</estimated_read_time>\n</article>\nHope this helps!").data

/-- The literal text between the body delimiters of `c5response`. -/
def c5literalBody : Str := "\n## はじめに\nLine <one> & two\n残り\n".data

def c5article : Article :=
  ⟨"AI入門".data, "## はじめに\nLine <one> & two\n残り".data, ["AI".data, "入門".data],
   "要約文".data, "5分".data⟩

/-- C8: a payload carrying only the mandatory body. -/
def c8response : Str := "<article><body>本文のみ</body></article>".data

def c8article : Article := ⟨[], "本文のみ".data, [], [], ertDefault⟩

/-- C7: gist id, idea lists and dates for the two runs. -/
def c7g : Str := "gid".data

def c7ideasA : List Json := [Json.str "i1".data]

def c7ideasB : List Json := [Json.str "i2".data]

def c7d1 : Str := "2025-01-04".data

def c7d2 : Str := "2025-01-05".data

/-- C9: a provider call failing twice with a transient error and succeeding
on the third attempt. -/
def c9call : Nat → Except Str Nat :=
  fun n => if n = 2 then Except.ok 42 else Except.error "Transient".data

/-! ### Shared lemmas. -/

theorem jsonLookup_applyPatch_self (files : List (Str × Json)) (name : Str) (c : Json) :
    jsonLookup name (applyPatch files name c) = some c := by
  induction files with
  | nil => simp [applyPatch, jsonLookup]
  | cons kv rest ih =>
    obtain ⟨k, v⟩ := kv
    by_cases h : k = name
    · simp [applyPatch, h, jsonLookup]
    · simp [applyPatch, h, jsonLookup, ih]

theorem jsonLookup_applyPatch_other (files : List (Str × Json)) (name other : Str)
    (c : Json) (h : other ≠ name) :
    jsonLookup other (applyPatch files name c) = jsonLookup other files := by
  have hne : ¬ name = other := fun hh => h hh.symm
  induction files with
  | nil => simp [applyPatch, jsonLookup, hne]
  | cons kv rest ih =>
    obtain ⟨k, v⟩ := kv
    by_cases hk : k = name
    · subst hk
      simp [applyPatch, jsonLookup, hne]
    · simp [applyPatch, hk, jsonLookup, ih]

theorem get_gist_content_200 (S : List (Str × Json)) (f : Str) :
    get_gist_content ⟨200, S⟩ f = jsonLookup f S := by
  simp [get_gist_content]

theorem historyArticlesOfBlob_wrap (xs : List Json) :
    historyArticlesOfBlob (some (Json.obj [("articles".data, Json.arr xs)])) = xs := by
  simp [historyArticlesOfBlob, jsonLookup]

theorem add_to_history_contentOf_str (resp : GistResponse) (date title category : Str) :
    add_to_history_contentOf resp date title (Json.str category)
      = add_to_history_content resp date title category := rfl

theorem load_history_200 (g : Str) (S : List (Str × Json)) :
    load_history (some g) ⟨200, S⟩ = historyArticles S := by
  unfold load_history historyArticles historyArticlesOfBlob
  rw [get_gist_content_200]

theorem ideaJobOnce_lookup (S : List (Str × Json)) (g : Str) (ideas : List Json) (d : Str) :
    jsonLookup selectionFile (ideaJobOnce S g ideas d) = some (selectionContent d ideas) ∧
    jsonLookup historyFile (ideaJobOnce S g ideas d)
      = some (Json.obj [("articles".data, Json.arr (historyArticles S))]) := by
  have hne : selectionFile ≠ historyFile := by decide
  simp only [ideaJobOnce, idea_job_files, applyFiles]
  constructor
  · rw [jsonLookup_applyPatch_other _ historyFile selectionFile _ hne,
      jsonLookup_applyPatch_self]
  · rw [jsonLookup_applyPatch_self, load_history_200]

theorem strList_roundtrip (ts : List Str) : strList? (ts.map Json.str) = some ts := by
  induction ts with
  | nil => rfl
  | cons t rest ih => simp [strList?, ih]

/-! ### Claim theorems. -/

/-- C1: the claim states that an out-of-range `selection` raises a
configuration error with no further side effects.  The code performs no range
check: with three ideas, `ideas[int(selection) - 1]` is Python negative
indexing for `selection ∈ {0, -1, -2}`, so `selection = 0` silently picks the
*third* idea and `selection = -2` (index `-3`, the negative boundary) the
*first*, after which the run proceeds to completion — the generator is
called, the artifact is written, and a history entry carrying the wrong
idea's category is appended; `selection = 4` dies with an uncaught
`IndexError`, not a configuration error (it does stop before any effect). -/
theorem c1_out_of_range_selection_proceeds :
    (article_job (c1inpWith 0)).1 = ArticleJobOutcome.completed ∧
    (article_job (c1inpWith 0)).2.providerCalled = true ∧
    (article_job (c1inpWith 0)).2.artifactWrite = some c1article ∧
    (article_job (c1inpWith 0)).2.historyWrite
      = some (Json.obj [("articles".data,
          Json.arr [historyEntryJson "2025-01-02".data c1article.title "cat3".data])]) ∧
    (article_job (c1inpWith (-2))).1 = ArticleJobOutcome.completed ∧
    (article_job (c1inpWith (-2))).2.historyWrite
      = some (Json.obj [("articles".data,
          Json.arr [historyEntryJson "2025-01-02".data c1article.title "cat1".data])]) ∧
    (article_job (c1inpWith 4)).1 = ArticleJobOutcome.uncaughtError "IndexError" ∧
    (article_job (c1inpWith 4)).2 = noEffects :=
  ⟨rfl, rfl, rfl, rfl, rfl, rfl, rfl, rfl⟩

/-- C2: the claim states that a genuine store failure on the history read is
surfaced rather than treated as empty history.  In the code any non-200
response makes `get_gist_content` return `None`, which `load_history` maps to
the empty history — exactly the same result as a genuinely absent blob, so a
store outage (here: HTTP 500 while the blob holds two entries) is silently
swallowed as "no history". -/
theorem c2_store_failure_treated_as_empty :
    load_history (some "gid".data) ⟨500, c2files⟩ = [] ∧
    load_history (some "gid".data) ⟨200, c2files⟩ = [c2entry1, c2entry2] ∧
    get_gist_content ⟨500, c2files⟩ historyFile = none ∧
    get_gist_content ⟨200, []⟩ historyFile = none :=
  ⟨rfl, rfl, rfl, rfl⟩

/-- C3 (amended): when the fresh history read inside the append succeeds
(status 200 against store state `S`), a completed run's history patch makes
the history exactly one entry longer; a run that fails in generation
(provider error or parse error) issues no history write and no artifact
write, leaving any store state unchanged. -/
theorem c3_history_delta (inp : ArticleJobInput) (S : List (Str × Json))
    (out : ArticleJobOutcome) (eff : ArticleJobEffects)
    (hrun : article_job inp = (out, eff))
    (hresp : inp.historyResp = ⟨200, S⟩) :
    (out = ArticleJobOutcome.completed →
      (historyArticles (storeAfter S eff true)).length = (historyArticles S).length + 1) ∧
    (∀ e, out = ArticleJobOutcome.generationFailed e →
      eff.historyWrite = none ∧ eff.artifactWrite = none ∧
      ∀ T b, storeAfter T eff b = T) := by
  unfold article_job at hrun
  repeat' split at hrun
  all_goals cases hrun
  all_goals refine ⟨fun hc => ?_, fun e he => ?_⟩
  all_goals try simp at hc
  all_goals try simp at he
  all_goals try exact ⟨rfl, rfl, fun T b => rfl⟩
  simp only [storeAfter, if_true]
  rw [historyArticles, jsonLookup_applyPatch_self, add_to_history_contentOf,
    historyArticlesOfBlob_wrap, hresp, get_gist_content_200]
  simp [historyArticles]

/-- C3 counterexample: a run in which the append-time history read fails
(HTTP 500) still completes, and its history patch *replaces* the two stored
entries by the single new one — afterwards the history length is 1, not
2 + 1, refuting the claim as universally stated. -/
theorem c3_counterexample :
    (article_job c3badInp).1 = ArticleJobOutcome.completed ∧
    (historyArticles c3store).length = 2 ∧
    (historyArticles (storeAfter c3store (article_job c3badInp).2 true)).length = 1 ∧
    (1 : Nat) ≠ 2 + 1 :=
  ⟨rfl, rfl, rfl, by decide⟩

/-- C3 witness: the amended theorem applied to a concrete successful run. -/
theorem c3_witness :
    (historyArticles (storeAfter c3store c3okEff true)).length
      = (historyArticles c3store).length + 1 :=
  (c3_history_delta c3okInp c3store ArticleJobOutcome.completed c3okEff (by rfl)
    (by rfl)).1 (by rfl)

/-- C4 (amended): the Parsing stage of IdeaProposalJob performs no count
check — whenever the decoded payload is an object carrying an `ideas` array,
that array is returned verbatim whatever its length, and the job proceeds
with it; only a decode failure or a missing `ideas` key is an error. -/
theorem c4_parse_returns_ideas_verbatim (loads : Str → Option Json) (r : Str)
    (ideas : List Json)
    (h : loads (stripCodeFence r) = some (Json.obj [("ideas".data, Json.arr ideas)])) :
    generate_ideas_parse loads r = Except.ok (Json.arr ideas) := by
  simp [generate_ideas_parse, h, ideasFromData, jsonLookup]

/-- C4 counterexample: a payload with two ideas is accepted without error,
refuting "fewer or more than 3 ideas is a ParseError". -/
theorem c4_counterexample :
    generate_ideas_parse c4loadsTwo "two ideas".data
      = Except.ok (Json.arr [c4idea1, c4idea2]) ∧
    [c4idea1, c4idea2].length = 2 ∧ (2 : Nat) ≠ 3 :=
  ⟨rfl, rfl, by decide⟩

/-- C4 witness: the amended theorem applied to a four-idea payload. -/
theorem c4_witness :
    generate_ideas_parse c4loadsFour "four ideas".data
      = Except.ok (Json.arr [c4idea1, c4idea2, c4idea1, c4idea2]) :=
  c4_parse_returns_ideas_verbatim c4loadsFour "four ideas".data
    [c4idea1, c4idea2, c4idea1, c4idea2] (by rfl)

/-- C5 (amended): whenever the article parser succeeds, the returned body is
the delimiter-bounded capture between the first `<body>` and the first
`</body>` of the extracted payload with leading and trailing whitespace
stripped (the regex `\s*(.*?)\s*` plus `.strip()`), taken independently of
the structural parse, which is performed on the remainder with the
placeholder spliced in. -/
theorem c5_body_is_trimmed_capture (r : Str) (a : Article) (captured : Str)
    (hp : parseArticleResponse r = ParseOutcome.ok a)
    (hc : between? (extractArticleBlock r) bodyOpen bodyClose = some captured) :
    a.body = trim captured ∧
    checkXml (substituteBody (extractArticleBlock r)) = true := by
  simp only [parseArticleResponse, bodyCapture?, hc, Option.map] at hp
  by_cases hx : checkXml (substituteBody (extractArticleBlock r)) = true
  · rw [if_pos hx] at hp
    cases hp
    exact ⟨rfl, hx⟩
  · rw [if_neg hx] at hp
    exact ParseOutcome.noConfusion hp

/-- C5 counterexample: on a response with prose around the payload and a body
whose delimiter-bounded content starts and ends with a newline, the parser
succeeds but returns the stripped body, which differs from the literal
content between the delimiters — refuting byte-for-byte equality with the
literal capture. -/
theorem c5_counterexample :
    parseArticleResponse c5response = ParseOutcome.ok c5article ∧
    between? (extractArticleBlock c5response) bodyOpen bodyClose = some c5literalBody ∧
    c5article.body ≠ c5literalBody :=
  ⟨rfl, rfl, by decide⟩

/-- C5 witness: the amended theorem applied to the concrete prose-wrapped
response with embedded newlines and structure-breaking characters in the
body. -/
theorem c5_witness :
    c5article.body = trim c5literalBody ∧
    checkXml (substituteBody (extractArticleBlock c5response)) = true :=
  c5_body_is_trimmed_capture c5response c5article c5literalBody (by rfl) (by rfl)

/-- C6: decoding the sidecar JSON written by `save_article` reproduces the
article record exactly — title, hashtags, summary and estimated read time
field-for-field, and the body character-for-character. -/
theorem c6_sidecar_roundtrip (a : Article) :
    jsonToArticle (save_article a).2 = some a := by
  obtain ⟨t, b, hs, s, e⟩ := a
  have h : strList? (hs.map Json.str) = some hs := strList_roundtrip hs
  show (match strList? (hs.map Json.str) with
        | some tags => some (Article.mk t b tags s e)
        | none => none) = some (Article.mk t b hs s e)
  rw [h]

/-- C7: IdeaProposalJob's persisting step is idempotent on history —
starting from a store whose history is empty, each of two consecutive runs
writes a selection record with `selection = null` and rewrites the history
blob unchanged in the same update, so the two runs leave identical (empty)
history content with no duplication. -/
theorem c7_carry_forward_idempotent (S0 : List (Str × Json)) (g : Str)
    (ideas1 ideas2 : List Json) (d1 d2 : Str)
    (hEmpty : historyArticles S0 = []) :
    selectionFieldOf (ideaJobOnce S0 g ideas1 d1) = some Json.null ∧
    selectionFieldOf (ideaJobOnce (ideaJobOnce S0 g ideas1 d1) g ideas2 d2)
      = some Json.null ∧
    jsonLookup historyFile (ideaJobOnce S0 g ideas1 d1)
      = some (Json.obj [("articles".data, Json.arr [])]) ∧
    jsonLookup historyFile (ideaJobOnce (ideaJobOnce S0 g ideas1 d1) g ideas2 d2)
      = jsonLookup historyFile (ideaJobOnce S0 g ideas1 d1) := by
  have h1 := ideaJobOnce_lookup S0 g ideas1 d1
  have hhist1 : historyArticles (ideaJobOnce S0 g ideas1 d1) = [] := by
    rw [historyArticles, h1.2, historyArticlesOfBlob_wrap, hEmpty]
  have h2 := ideaJobOnce_lookup (ideaJobOnce S0 g ideas1 d1) g ideas2 d2
  refine ⟨?_, ?_, ?_, ?_⟩
  · rw [selectionFieldOf, h1.1]
    simp [selectionContent, jsonLookup]
  · rw [selectionFieldOf, h2.1]
    simp [selectionContent, jsonLookup]
  · rw [h1.2, hEmpty]
  · rw [h2.2, hhist1, h1.2, hEmpty]

/-- C7 witness: the theorem applied to the empty store and two concrete
runs. -/
theorem c7_witness :
    selectionFieldOf (ideaJobOnce [] c7g c7ideasA c7d1) = some Json.null ∧
    selectionFieldOf (ideaJobOnce (ideaJobOnce [] c7g c7ideasA c7d1) c7g c7ideasB c7d2)
      = some Json.null ∧
    jsonLookup historyFile (ideaJobOnce [] c7g c7ideasA c7d1)
      = some (Json.obj [("articles".data, Json.arr [])]) ∧
    jsonLookup historyFile (ideaJobOnce (ideaJobOnce [] c7g c7ideasA c7d1) c7g c7ideasB c7d2)
      = jsonLookup historyFile (ideaJobOnce [] c7g c7ideasA c7d1) :=
  c7_carry_forward_idempotent [] c7g c7ideasA c7ideasB c7d1 c7d2 (by rfl)

/-- C8 (amended): whenever the article parser succeeds, a missing or empty
`title` or `summary` defaults to the empty string, missing `hashtags` default
to the empty sequence, but a missing or empty `estimated_read_time` defaults
to the constant `"5分"`, not to the empty string. -/
theorem c8_missing_fields_default (r : Str) (a : Article)
    (hp : parseArticleResponse r = ParseOutcome.ok a) :
    ((findTagText? (substituteBody (extractArticleBlock r)) "title" = none ∨
      findTagText? (substituteBody (extractArticleBlock r)) "title" = some []) →
        a.title = []) ∧
    (findTagText? (substituteBody (extractArticleBlock r)) "hashtags" = none →
        a.hashtags = []) ∧
    ((findTagText? (substituteBody (extractArticleBlock r)) "summary" = none ∨
      findTagText? (substituteBody (extractArticleBlock r)) "summary" = some []) →
        a.summary = []) ∧
    ((findTagText? (substituteBody (extractArticleBlock r)) "estimated_read_time" = none ∨
      findTagText? (substituteBody (extractArticleBlock r)) "estimated_read_time" = some []) →
        a.estimated_read_time = ertDefault) := by
  simp only [parseArticleResponse, bodyCapture?] at hp
  cases hb : between? (extractArticleBlock r) bodyOpen bodyClose with
  | none =>
    rw [hb] at hp
    simp [Option.map] at hp
  | some captured =>
    rw [hb] at hp
    simp only [Option.map] at hp
    by_cases hx : checkXml (substituteBody (extractArticleBlock r)) = true
    · rw [if_pos hx] at hp
      cases hp
      refine ⟨?_, ?_, ?_, ?_⟩
      · rintro (h | h) <;> simp [fieldOrDefault, h, List.isEmpty]
      · intro h
        simp [extractHashtags, h]
      · rintro (h | h) <;> simp [fieldOrDefault, h, List.isEmpty]
      · rintro (h | h) <;> simp [fieldOrDefault, h, List.isEmpty]
    · rw [if_neg hx] at hp
      exact ParseOutcome.noConfusion hp

/-- C8 counterexample: a payload carrying only the body parses successfully,
and the missing `estimated_read_time` comes back as `"5分"`, which is not the
empty string — refuting "defaults to the empty string or empty sequence" for
that field. -/
theorem c8_counterexample :
    parseArticleResponse c8response = ParseOutcome.ok c8article ∧
    c8article.estimated_read_time = ertDefault ∧
    ertDefault ≠ [] :=
  ⟨rfl, rfl, by decide⟩

/-- C8 witness: the amended theorem applied to the body-only payload. -/
theorem c8_witness :
    c8article.title = [] ∧ c8article.hashtags = [] ∧ c8article.summary = [] ∧
    c8article.estimated_read_time = ertDefault := by
  have H := c8_missing_fields_default c8response c8article (by rfl)
  exact ⟨H.1 (Or.inl (by rfl)), H.2.1 (by rfl), H.2.2.1 (Or.inl (by rfl)),
    H.2.2.2 (Or.inl (by rfl))⟩

/-- C9: a provider call failing on attempts 0 and 1 and succeeding on
attempt 2 makes the retry wrapper return the successful result, after a total
wait of two exponential-backoff delays — the 5-unit base delay after the
first failure and its double, 10 units, after the second. -/
theorem c9_retry_two_failures_then_success {E A : Type} (call : Nat → Except E A)
    (e0 e1 : E) (a : A)
    (h0 : call 0 = Except.error e0) (h1 : call 1 = Except.error e1)
    (h2 : call 2 = Except.ok a) :
    providerCallWithRetry call
      = (Except.ok a, retry_delay * 2 ^ 0 + retry_delay * 2 ^ 1) ∧
    retry_delay * 2 ^ 0 = 5 ∧ retry_delay * 2 ^ 1 = 10 := by
  refine ⟨?_, by decide, by decide⟩
  simp [providerCallWithRetry, max_retries, retrySeq, h0, h1, h2, retry_delay]

/-- C9 witness: the theorem applied to a concrete call that fails twice and
then succeeds. -/
theorem c9_witness :
    providerCallWithRetry c9call
      = (Except.ok 42, retry_delay * 2 ^ 0 + retry_delay * 2 ^ 1) ∧
    retry_delay * 2 ^ 0 = 5 ∧ retry_delay * 2 ^ 1 = 10 :=
  c9_retry_two_failures_then_success c9call "Transient".data "Transient".data 42
    (by rfl) (by rfl) (by rfl)

/-- C10: the history append patches only the history blob — applying the
append's patch to any store state leaves the selection blob's content
untouched — and the appended list is `add_to_history`'s fresh read of the
history blob at append time plus exactly the one new entry, so whatever
entries the store holds at that moment are preserved. -/
theorem c10_append_patch_frame (S : List (Str × Json)) (date title category : Str) :
    jsonLookup selectionFile
        (applyPatch S historyFile (add_to_history_content ⟨200, S⟩ date title category))
      = jsonLookup selectionFile S ∧
    historyArticles
        (applyPatch S historyFile (add_to_history_content ⟨200, S⟩ date title category))
      = historyArticles S ++ [historyEntryJson date title category] := by
  have hne : selectionFile ≠ historyFile := by decide
  constructor
  · exact jsonLookup_applyPatch_other S historyFile selectionFile
      (add_to_history_content ⟨200, S⟩ date title category) hne
  · rw [historyArticles, jsonLookup_applyPatch_self, add_to_history_content,
      historyArticlesOfBlob_wrap, get_gist_content_200]
    rfl

end AiContentGen
